import Mathlib

/-!
Verification of `llama-stack-provider-lmeval`: a shallow embedding of
`config.py`, `provider.py` and (modelled from the spec, since the module is
not among the sources) the `LMEvalCRBuilder.create_cr` manifest builder of
`lmeval.py`, together with theorems settling the specification claims.
-/

namespace LMEval

/-- A dynamically typed Python value, used for the fields whose validation
inspects the runtime type: `use_k8s` (annotated `bool` but unenforced) and
`tls` (annotated `Optional[Union[str, bool]]`). `int` stands for any value
that is neither `None`, a `bool`, nor a `str`. -/
inductive PyVal where
  | none : PyVal
  | bool (b : Bool) : PyVal
  | str (s : String) : PyVal
  | int (n : Int) : PyVal
deriving DecidableEq, Repr

/-- Python `isinstance(v, bool)`. -/
def PyVal.isBool : PyVal → Bool
  | PyVal.bool _ => true
  | _ => false

/-- Python `isinstance(v, str)`. -/
def PyVal.isStr : PyVal → Bool
  | PyVal.str _ => true
  | _ => false

/-- Python `dict.get`: the value of the first binding of the key in the
association list, if any. -/
def dictGet {α : Type} (d : List (String × α)) (k : String) : Option α :=
  (d.find? (fun p => p.1 == k)).map (fun p => p.2)

/-- Python truthiness of an `Optional[List[...]]` value: `None` and the empty
list are falsy. -/
def optListTruthy {α : Type} : Option (List α) → Bool
  | Option.none => false
  | Option.some l => !l.isEmpty

/-- A validation "raises" exactly when its result is an error. -/
def raises {ε α : Type} : Except ε α → Bool
  | Except.error _ => true
  | Except.ok _ => false

/-- Sampling parameters attached to an evaluation candidate. Modelled from
the spec: sampling parameters are flattened into additional `modelArgs`
entries; the known parameters are carried as named optional fields (values
already in string form, since all `modelArgs` values are strings). -/
structure SamplingParams where
  temperature : Option String := Option.none
  top_p : Option String := Option.none
  max_tokens : Option String := Option.none
deriving DecidableEq, Repr

/-- The evaluation candidate consumed by the provider (external duck-typed
object exposing `type`, `model` and `sampling_params`). -/
structure EvalCandidate where
  type : String
  model : String
  sampling_params : SamplingParams
deriving DecidableEq, Repr

/-- `LMEvalBenchmarkConfig` from `config.py` (the fields declared there; the
inherited `BenchmarkConfig` base class is external to this repository). -/
structure LMEvalBenchmarkConfig where
  model : String
  eval_candidate : EvalCandidate
  env_vars : Option (List (String × String)) := Option.none
  metadata : Option (List (String × String)) := Option.none
deriving DecidableEq, Repr

/-- `LMEvalBenchmarkConfig.__post_init__` from `config.py`: after the
(external) superclass check, `if not self.model: raise ValueError("model
must be provided")`. -/
def LMEvalBenchmarkConfig.postInit (c : LMEvalBenchmarkConfig) :
    Except String Unit :=
  if c.model = "" then Except.error "model must be provided"
  else Except.ok ()

/-- `K8sLMEvalConfig` from `config.py`, with its declared defaults. -/
structure K8sLMEvalConfig where
  model : String
  model_args : Option (List (String × String)) := Option.some []
  task_list : Option (List (String × List String)) := Option.none
  log_samples : Bool := true
  «namespace» : String := "default"
  env_vars : Option (List (String × String)) := Option.none
deriving DecidableEq, Repr

/-- `K8sLMEvalConfig.__post_init__` from `config.py`:
`if not self.task_list or not self.task_list.get("taskNames")` raises
`"taskList.taskNames must be provided"`, then `if not self.model` raises
`"model must be provided"`. Python truthiness: `None`, the empty dict, the
empty list and the empty string are falsy. -/
def K8sLMEvalConfig.postInit (c : K8sLMEvalConfig) : Except String Unit :=
  if (match c.task_list with
      | Option.none => true
      | Option.some d => d.isEmpty || !optListTruthy (dictGet d "taskNames")) then
    Except.error "taskList.taskNames must be provided"
  else if c.model = "" then
    Except.error "model must be provided"
  else
    Except.ok ()

/-- `LMEvalEvalProviderConfig` from `config.py`, with its declared
defaults. -/
structure LMEvalEvalProviderConfig where
  use_k8s : PyVal := PyVal.bool true
  base_url : String := "http://llamastack-service:8321"
  «namespace» : String := "test"
  kubeconfig_path : Option String := Option.none
  service_account : Option String := Option.none
  default_tokenizer : String := "google/flan-t5-base"
  metadata : Option (List (String × String)) := Option.none
  tls : PyVal := PyVal.none
deriving DecidableEq, Repr

/-- `LMEvalEvalProviderConfig.__post_init__` from `config.py`: `use_k8s`
must be a `bool` and must not be `False`; `tls`, if not `None`, must be a
`str` or the literal `False`. -/
def LMEvalEvalProviderConfig.postInit (c : LMEvalEvalProviderConfig) :
    Except String Unit :=
  if !c.use_k8s.isBool then
    Except.error "use_k8s must be a boolean"
  else if c.use_k8s = PyVal.bool false then
    Except.error "Only Kubernetes LMEval backend is supported at the moment"
  else if c.tls ≠ PyVal.none ∧ ¬ (c.tls.isStr = true ∨ c.tls = PyVal.bool false) then
    Except.error "tls must be either a string path to a certificate or False"
  else
    Except.ok ()

/-- The host framework's API selector (only `eval` is used here). -/
inductive Api where
  | eval : Api
deriving DecidableEq, Repr

/-- `AdapterSpec` from the host framework: the fields `provider.py`
populates. -/
structure AdapterSpec where
  adapter_type : String
  pip_packages : List String
  config_class : String
  module : String
deriving DecidableEq, Repr

/-- `ProviderSpec` as produced by the host framework's
`remote_provider_spec`: pure data pairing the API with the adapter
description. -/
structure ProviderSpec where
  api : Api
  adapter : AdapterSpec
deriving DecidableEq, Repr

/-- `remote_provider_spec` from the host framework, modelled as the pure
packaging of its two arguments. -/
def remote_provider_spec (api : Api) (adapter : AdapterSpec) : ProviderSpec :=
  { api := api, adapter := adapter }

/-- `get_provider_spec` from `provider.py`. -/
def get_provider_spec : ProviderSpec :=
  remote_provider_spec Api.eval
    { adapter_type := "lmeval"
      pip_packages := ["kubernetes"]
      config_class := "lmeval.config.LMEvalBenchmarkConfig"
      module := "lmeval" }

/-- A `{name, value}` string pair as carried by `modelArgs` and `env`. -/
structure ModelArg where
  name : String
  value : String
deriving DecidableEq, Repr

/-- The `taskList` block of the manifest. -/
structure TaskList where
  taskNames : List String
deriving DecidableEq, Repr

/-- The `spec` block of the `LMEvalJob` manifest. -/
structure LMEvalJobSpec where
  model : String
  modelArgs : List ModelArg
  taskList : TaskList
  logSamples : Bool
  limit : Option String
  env : Option (List ModelArg)
  pod_serviceAccountName : Option String
deriving DecidableEq, Repr

/-- The `metadata` block of the manifest. -/
structure ManifestMetadata where
  «namespace» : String
deriving DecidableEq, Repr

/-- The Kubernetes custom-resource manifest returned by `create_cr`. -/
structure Manifest where
  apiVersion : String
  kind : String
  metadata : ManifestMetadata
  spec : LMEvalJobSpec
deriving DecidableEq, Repr

/-- The persisted benchmark object consumed by `create_cr` (capability:
expose `metadata`). -/
structure StoredBenchmark where
  metadata : List (String × String)
deriving DecidableEq, Repr

/-- `LMEvalCRBuilder` state: the configured namespace and service account,
and the held provider configuration `_config`. -/
structure LMEvalCRBuilder where
  «namespace» : String
  service_account : Option String := Option.none
  _config : LMEvalEvalProviderConfig
deriving DecidableEq, Repr

/-- Modelled from the spec (the module `lmeval.py` holding the CR builder is
not among the sources): the TLS branching rule. If the provider's `tls`
setting is unset, no `verify_certificate` entry is added; if `tls` is
`False`, an entry with string value `"False"` is added; if `tls` is a
non-empty string, an entry with that literal string is added. -/
def tlsModelArgs : PyVal → List ModelArg
  | PyVal.bool false => [ModelArg.mk "verify_certificate" "False"]
  | PyVal.str s => if s = "" then [] else [ModelArg.mk "verify_certificate" s]
  | _ => []

/-- Modelled from the spec: the flattening of the candidate's sampling
parameters into `modelArgs` entries. -/
def samplingModelArgs (p : SamplingParams) : List ModelArg :=
  (match p.temperature with
   | Option.some v => [ModelArg.mk "temperature" v]
   | Option.none => []) ++
  (match p.top_p with
   | Option.some v => [ModelArg.mk "top_p" v]
   | Option.none => []) ++
  (match p.max_tokens with
   | Option.some v => [ModelArg.mk "max_tokens" v]
   | Option.none => [])

/-- Split a character list on the `::` separator (structural recursion, so
it evaluates definitionally). -/
def splitOnColons : List Char → List (List Char)
  | [] => [[]]
  | ':' :: ':' :: rest => [] :: splitOnColons rest
  | c :: rest =>
      match splitOnColons rest with
      | [] => [[c]]
      | l :: ls => (c :: l) :: ls

/-- Modelled from the spec: the namespaced benchmark identifier (e.g.
`"lmeval::mmlu"`) is translated into the task runner's task name by taking
the part after the `::` separator (the exact resolution rule is an open
question in the spec; this is the id-suffix derivation it describes). -/
def resolveTaskNames (benchmark_id : String) : List String :=
  match (splitOnColons benchmark_id.toList).getLast? with
  | Option.some t => [String.mk t]
  | Option.none => [benchmark_id]

set_option linter.unusedVariables false in
/-- Modelled from the spec (the module `lmeval.py` holding it is not among
the sources; only its tests are): `LMEvalCRBuilder.create_cr`. A pure
function of its inputs plus the builder's held configuration. It rejects an
unrecognized candidate type and empty identifying fields; otherwise it
builds the manifest: `spec.model` is the served-model type identifier, the
raw model name and the base URL head `modelArgs`, sampling parameters are
flattened next, then the TLS rule's entry; `taskList.taskNames` derives
from `benchmark_id`; `limit` (with `Option.none` as the "no limit"
sentinel) and `env_vars` are propagated; `metadata.namespace` and the
optional pod service account come from the builder. -/
def LMEvalCRBuilder.create_cr (builder : LMEvalCRBuilder)
    (benchmark_id : String) (task_config : LMEvalBenchmarkConfig)
    (base_url : String) (limit : Option String)
    (stored_benchmark : StoredBenchmark) : Except String Manifest :=
  if task_config.eval_candidate.type ≠ "model" then
    Except.error "unsupported evaluation candidate type"
  else if task_config.eval_candidate.model = "" then
    Except.error "model must not be empty"
  else if benchmark_id = "" then
    Except.error "benchmark_id must not be empty"
  else
    Except.ok
      { apiVersion := "trustyai.opendatahub.io/v1alpha1"
        kind := "LMEvalJob"
        metadata := { «namespace» := builder.«namespace» }
        spec :=
          { model := "local-completions"
            modelArgs :=
              [ModelArg.mk "model" task_config.eval_candidate.model,
               ModelArg.mk "base_url" base_url] ++
              samplingModelArgs task_config.eval_candidate.sampling_params ++
              tlsModelArgs builder._config.tls
            taskList := { taskNames := resolveTaskNames benchmark_id }
            logSamples := true
            limit := limit
            env := task_config.env_vars.map
              (fun l => l.map (fun p => ModelArg.mk p.1 p.2))
            pod_serviceAccountName := builder.service_account } }

/-- The `verify_certificate` entries of a manifest's `modelArgs`, exactly as
the repository's tests select them. -/
def verifyCertEntries (m : Manifest) : List ModelArg :=
  m.spec.modelArgs.filter (fun a => a.name == "verify_certificate")

/-- A `tls` value accepted by `LMEvalEvalProviderConfig.postInit`: unset,
the literal `False`, or a string. -/
def validTls : PyVal → Bool
  | PyVal.none => true
  | PyVal.bool b => !b
  | PyVal.str _ => true
  | PyVal.int _ => false

/-! ## Theorems settling the specification claims -/

/-- C4: constructing `LMEvalBenchmarkConfig` raises the validation error
naming the model exactly when the model name is the empty string; for a
non-empty model name its own post-init check does not raise. -/
theorem benchmark_config_model_validation (c : LMEvalBenchmarkConfig) :
    raises (LMEvalBenchmarkConfig.postInit c) = true ↔ c.model = "" := by
  by_cases h : c.model = "" <;>
    simp [LMEvalBenchmarkConfig.postInit, raises, h]

/-- C5: the configuration defaults are namespace `"default"` for
`K8sLMEvalConfig` and `"test"` for `LMEvalEvalProviderConfig`,
`log_samples = true`, `default_tokenizer = "google/flan-t5-base"`, and
`base_url` fixed to the in-cluster service address; a configuration
constructed without supplying these fields carries exactly these values. -/
theorem config_defaults (m : String)
    (tl : Option (List (String × List String))) :
    ({ model := m, task_list := tl } : K8sLMEvalConfig).«namespace» = "default" ∧
    ({ model := m, task_list := tl } : K8sLMEvalConfig).log_samples = true ∧
    ({} : LMEvalEvalProviderConfig).«namespace» = "test" ∧
    ({} : LMEvalEvalProviderConfig).default_tokenizer = "google/flan-t5-base" ∧
    ({} : LMEvalEvalProviderConfig).base_url = "http://llamastack-service:8321" :=
  ⟨rfl, rfl, rfl, rfl, rfl⟩

/-- C7: the provider descriptor exposed to the host framework declares
adapter type `"lmeval"`, the Kubernetes client library as its required
package dependency, and a configuration class to bind to. -/
theorem provider_spec_contents :
    get_provider_spec.adapter.adapter_type = "lmeval" ∧
    get_provider_spec.adapter.pip_packages = ["kubernetes"] ∧
    get_provider_spec.adapter.config_class = "lmeval.config.LMEvalBenchmarkConfig" ∧
    get_provider_spec.api = Api.eval :=
  ⟨rfl, rfl, rfl, rfl⟩

/-- C8: `task_list` defaults to `None`, which the post-init check always
rejects: constructing `K8sLMEvalConfig` without supplying `task_list`
raises the `taskList.taskNames` validation error for every choice of the
other fields. -/
theorem k8s_task_list_effectively_required (m : String)
    (ma : Option (List (String × String))) (ls : Bool) (ns : String)
    (ev : Option (List (String × String))) :
    ({ model := m } : K8sLMEvalConfig).task_list = Option.none ∧
    K8sLMEvalConfig.postInit
      { model := m, model_args := ma, log_samples := ls, «namespace» := ns,
        env_vars := ev } =
      Except.error "taskList.taskNames must be provided" :=
  ⟨rfl, rfl⟩

/-- C9: constructing `LMEvalEvalProviderConfig` with `tls` equal to the
empty string succeeds (the empty string is a string, so the TLS check
passes), for every choice of the other fields. -/
theorem provider_config_empty_tls_ok (burl ns dt : String)
    (kc sa : Option String) (md : Option (List (String × String))) :
    LMEvalEvalProviderConfig.postInit
      { use_k8s := PyVal.bool true, base_url := burl, «namespace» := ns,
        kubeconfig_path := kc, service_account := sa,
        default_tokenizer := dt, metadata := md, tls := PyVal.str "" } =
      Except.ok () := by
  simp [LMEvalEvalProviderConfig.postInit, PyVal.isBool, PyVal.isStr]

/-- C2: constructing `LMEvalEvalProviderConfig` raises exactly when
`use_k8s` is not a boolean, or `use_k8s` is the boolean `false`, or `tls`
is set and is neither a string nor the literal `false`; in particular
`use_k8s = false` always raises, and construction with all defaults
succeeds. -/
theorem provider_config_validation (c : LMEvalEvalProviderConfig) :
    (raises (LMEvalEvalProviderConfig.postInit c) = true ↔
      (c.use_k8s.isBool = false ∨ c.use_k8s = PyVal.bool false ∨
       (c.tls ≠ PyVal.none ∧ c.tls.isStr = false ∧ c.tls ≠ PyVal.bool false))) ∧
    (c.use_k8s = PyVal.bool false →
      raises (LMEvalEvalProviderConfig.postInit c) = true) ∧
    LMEvalEvalProviderConfig.postInit {} = Except.ok () := by
  refine ⟨?_, ?_, rfl⟩
  · obtain ⟨u, burl, ns, kc, sa, dt, md, t⟩ := c
    cases u with
    | none =>
      simp [LMEvalEvalProviderConfig.postInit, raises, PyVal.isBool]
    | str s =>
      simp [LMEvalEvalProviderConfig.postInit, raises, PyVal.isBool]
    | int n =>
      simp [LMEvalEvalProviderConfig.postInit, raises, PyVal.isBool]
    | bool ub =>
      cases ub with
      | false =>
        simp [LMEvalEvalProviderConfig.postInit, raises, PyVal.isBool]
      | true =>
        cases t with
        | none =>
          simp [LMEvalEvalProviderConfig.postInit, raises, PyVal.isBool,
            PyVal.isStr]
        | str s =>
          simp [LMEvalEvalProviderConfig.postInit, raises, PyVal.isBool,
            PyVal.isStr]
        | int n =>
          simp [LMEvalEvalProviderConfig.postInit, raises, PyVal.isBool,
            PyVal.isStr]
        | bool tb =>
          cases tb <;>
            simp [LMEvalEvalProviderConfig.postInit, raises, PyVal.isBool,
              PyVal.isStr]
  · intro h
    obtain ⟨u, burl, ns, kc, sa, dt, md, t⟩ := c
    simp only at h
    subst h
    simp [LMEvalEvalProviderConfig.postInit, raises, PyVal.isBool]

/-- C2 witness: `use_k8s = false` raises at a concrete configuration. -/
theorem provider_config_validation_witness :
    raises (LMEvalEvalProviderConfig.postInit
      { use_k8s := PyVal.bool false }) = true :=
  (provider_config_validation { use_k8s := PyVal.bool false }).2.1 rfl

/-- C3: constructing `K8sLMEvalConfig` raises a validation error exactly
when `task_list` is absent, or its `taskNames` entry is missing or empty,
or `model` is the empty string; otherwise construction succeeds. -/
theorem k8s_config_validation (c : K8sLMEvalConfig) :
    raises (K8sLMEvalConfig.postInit c) = true ↔
      (c.task_list = Option.none ∨
       Option.bind c.task_list (fun d => dictGet d "taskNames") = Option.none ∨
       Option.bind c.task_list (fun d => dictGet d "taskNames") = Option.some [] ∨
       c.model = "") := by
  obtain ⟨m, ma, tl, ls, ns, ev⟩ := c
  cases tl with
  | none => simp [K8sLMEvalConfig.postInit, raises]
  | some d =>
    by_cases hd : d.isEmpty
    · have hget : dictGet d "taskNames" = Option.none := by
        rw [List.isEmpty_iff] at hd
        subst hd
        rfl
      simp [K8sLMEvalConfig.postInit, raises, hd, hget]
    · cases hg : dictGet d "taskNames" with
      | none =>
        simp [K8sLMEvalConfig.postInit, raises, hd, hg, optListTruthy]
      | some names =>
        by_cases hn : names.isEmpty
        · rw [List.isEmpty_iff] at hn
          subst hn
          simp [K8sLMEvalConfig.postInit, raises, hd, hg, optListTruthy]
        · have hne : names ≠ [] := by
            intro h
            exact hn (by simp [h])
          by_cases hm : m = "" <;>
            simp [K8sLMEvalConfig.postInit, raises, hd, hg, optListTruthy,
              hn, hm, hne]

/-- C10: `K8sLMEvalConfig` validates `task_list` before `model`: whenever
both are invalid, the error raised is the one naming
`taskList.taskNames`. -/
theorem k8s_validation_order (c : K8sLMEvalConfig)
    (htl : c.task_list = Option.none ∨
      Option.bind c.task_list (fun d => dictGet d "taskNames") = Option.none ∨
      Option.bind c.task_list (fun d => dictGet d "taskNames") = Option.some [])
    (hm : c.model = "") :
    K8sLMEvalConfig.postInit c =
      Except.error "taskList.taskNames must be provided" := by
  obtain ⟨m, ma, tl, ls, ns, ev⟩ := c
  cases tl with
  | none => rfl
  | some d =>
    have hcond : (d.isEmpty || !optListTruthy (dictGet d "taskNames")) = true := by
      rcases htl with h | h | h
      · exact absurd h (by simp)
      · have h2 : dictGet d "taskNames" = Option.none := h
        simp [optListTruthy, h2]
      · have h2 : dictGet d "taskNames" = Option.some [] := h
        simp [optListTruthy, h2]
    simp [K8sLMEvalConfig.postInit, hcond]

/-- C10 witness: with `task_list = None` and an empty model, the
`taskList.taskNames` error is the one raised. -/
theorem k8s_validation_order_witness :
    K8sLMEvalConfig.postInit { model := "", task_list := Option.none } =
      Except.error "taskList.taskNames must be provided" :=
  k8s_validation_order { model := "", task_list := Option.none }
    (Or.inl rfl) rfl

/-- The two leading `modelArgs` entries (model name and base URL) are never
named `verify_certificate`. -/
lemma base_args_filter (mn u : String) :
    ([ModelArg.mk "model" mn, ModelArg.mk "base_url" u]).filter
      (fun a => a.name == "verify_certificate") = [] := by
  simp [List.filter]

/-- No flattened sampling-parameter entry is named `verify_certificate`. -/
lemma sampling_args_filter (p : SamplingParams) :
    (samplingModelArgs p).filter (fun a => a.name == "verify_certificate") =
      [] := by
  obtain ⟨t, tp, mt⟩ := p
  cases t <;> cases tp <;> cases mt <;>
    simp [samplingModelArgs, List.filter]

/-- Every entry the TLS rule adds is named `verify_certificate`, so the
filter keeps them all. -/
lemma tls_args_filter (v : PyVal) :
    (tlsModelArgs v).filter (fun a => a.name == "verify_certificate") =
      tlsModelArgs v := by
  cases v with
  | bool b => cases b <;> simp [tlsModelArgs, List.filter]
  | str s => by_cases hs : s = "" <;> simp [tlsModelArgs, List.filter, hs]
  | none => simp [tlsModelArgs]
  | int n => simp [tlsModelArgs]

/-- A list holds an entry with a given name iff filtering by that name is
non-empty. -/
lemma exists_name_iff_filter_ne_nil (l : List ModelArg) (nm : String) :
    (∃ a ∈ l, a.name = nm) ↔
      l.filter (fun a => a.name == nm) ≠ [] := by
  constructor
  · rintro ⟨a, ha, hname⟩ hnil
    have hmem : a ∈ l.filter (fun a => a.name == nm) :=
      List.mem_filter.mpr ⟨ha, by simp [hname]⟩
    rw [hnil] at hmem
    exact absurd hmem (List.not_mem_nil a)
  · intro hne
    cases hf : l.filter (fun a => a.name == nm) with
    | nil => exact absurd hf hne
    | cons b bs =>
      have hb : b ∈ l.filter (fun a => a.name == nm) := by
        rw [hf]
        exact List.mem_cons_self b bs
      have hmem := List.mem_filter.mp hb
      exact ⟨b, hmem.1, by simpa using hmem.2⟩

/-- C1: for every provider configuration with a valid `tls` setting, the
manifest returned by `create_cr` contains a `modelArgs` entry named
`verify_certificate` iff `tls` is the literal `false` or a non-empty
string; when `tls` is `false` that entry's value is the string `"False"`,
when `tls` is a non-empty string the value is exactly that string, and when
`tls` is unset no `verify_certificate` entry appears. -/
theorem create_cr_verify_certificate (builder : LMEvalCRBuilder)
    (benchmark_id : String) (task_config : LMEvalBenchmarkConfig)
    (base_url : String) (limit : Option String) (stored : StoredBenchmark)
    (m : Manifest)
    (hvalid : validTls builder._config.tls = true)
    (hok : builder.create_cr benchmark_id task_config base_url limit stored =
      Except.ok m) :
    ((∃ a ∈ m.spec.modelArgs, a.name = "verify_certificate") ↔
      (builder._config.tls = PyVal.bool false ∨
       ∃ s, s ≠ "" ∧ builder._config.tls = PyVal.str s)) ∧
    (builder._config.tls = PyVal.bool false →
      verifyCertEntries m = [ModelArg.mk "verify_certificate" "False"]) ∧
    (∀ s, s ≠ "" → builder._config.tls = PyVal.str s →
      verifyCertEntries m = [ModelArg.mk "verify_certificate" s]) ∧
    (builder._config.tls = PyVal.none → verifyCertEntries m = []) := by
  unfold LMEvalCRBuilder.create_cr at hok
  split_ifs at hok
  · injection hok with hok
    have hfilter : ([ModelArg.mk "model" task_config.eval_candidate.model,
        ModelArg.mk "base_url" base_url] ++
        samplingModelArgs task_config.eval_candidate.sampling_params ++
        tlsModelArgs builder._config.tls).filter
          (fun a => a.name == "verify_certificate") =
        tlsModelArgs builder._config.tls := by
      rw [List.filter_append, List.filter_append, base_args_filter,
        sampling_args_filter, tls_args_filter]
      simp
    have key : verifyCertEntries m = tlsModelArgs builder._config.tls := by
      rw [← hok]
      exact hfilter
    refine ⟨?_, ?_, ?_, ?_⟩
    · rw [exists_name_iff_filter_ne_nil]
      have key2 : m.spec.modelArgs.filter
          (fun a => a.name == "verify_certificate") =
          tlsModelArgs builder._config.tls := key
      rw [key2]
      cases htls : builder._config.tls with
      | none => simp [tlsModelArgs]
      | bool b =>
        cases b with
        | false => simp [tlsModelArgs]
        | true =>
          rw [htls] at hvalid
          simp [validTls] at hvalid
      | str s =>
        by_cases hs : s = ""
        · subst hs
          simp [tlsModelArgs]
        · simp [tlsModelArgs, hs]
      | int n =>
        rw [htls] at hvalid
        simp [validTls] at hvalid
    · intro h
      rw [key, h]
      simp [tlsModelArgs]
    · intro s hs h
      rw [key, h]
      simp [tlsModelArgs, hs]
    · intro h
      rw [key, h]
      simp [tlsModelArgs]

/-- A concrete builder exercising `create_cr`: the test suite's fixture
with `tls = False`. -/
def sampleBuilder : LMEvalCRBuilder :=
  { «namespace» := "test-namespace"
    service_account := Option.some "test-service-account"
    _config := { tls := PyVal.bool false } }

/-- A concrete benchmark configuration: the test suite's fixture. -/
def sampleTaskConfig : LMEvalBenchmarkConfig :=
  { model := "test-model"
    eval_candidate :=
      { type := "model", model := "test-model", sampling_params := {} } }

/-- The manifest `create_cr` produces for the sample inputs. -/
def sampleManifest : Manifest :=
  { apiVersion := "trustyai.opendatahub.io/v1alpha1"
    kind := "LMEvalJob"
    metadata := { «namespace» := "test-namespace" }
    spec :=
      { model := "local-completions"
        modelArgs :=
          [ModelArg.mk "model" "test-model",
           ModelArg.mk "base_url" "http://my-model-url",
           ModelArg.mk "verify_certificate" "False"]
        taskList := { taskNames := ["mmlu"] }
        logSamples := true
        limit := Option.some "10"
        env := Option.none
        pod_serviceAccountName := Option.some "test-service-account" } }

/-- C1 witness: at the `tls = False` fixture, the produced manifest carries
exactly the `verify_certificate` entry with value `"False"`. -/
theorem create_cr_verify_certificate_witness :
    verifyCertEntries sampleManifest =
      [ModelArg.mk "verify_certificate" "False"] :=
  (create_cr_verify_certificate sampleBuilder "lmeval::mmlu"
    sampleTaskConfig "http://my-model-url" (Option.some "10")
    { metadata := [] } sampleManifest (by decide) (by rfl)).2.1 rfl

/-- C6: `create_cr` is deterministic: two invocations with identical inputs
and an identically configured builder return identical manifests (it is a
pure function of its arguments and the held configuration). -/
theorem create_cr_deterministic
    (b b2 : LMEvalCRBuilder) (bid bid2 : String)
    (tc tc2 : LMEvalBenchmarkConfig) (url url2 : String)
    (lim lim2 : Option String) (st st2 : StoredBenchmark)
    (hb : b = b2) (hbid : bid = bid2) (htc : tc = tc2) (hurl : url = url2)
    (hlim : lim = lim2) (hst : st = st2) :
    b.create_cr bid tc url lim st = b2.create_cr bid2 tc2 url2 lim2 st2 := by
  subst hb
  subst hbid
  subst htc
  subst hurl
  subst hlim
  subst hst
  rfl

/-- C6 witness: the two invocations at the sample fixture agree. -/
theorem create_cr_deterministic_witness :
    sampleBuilder.create_cr "lmeval::mmlu" sampleTaskConfig
        "http://my-model-url" (Option.some "10") { metadata := [] } =
      sampleBuilder.create_cr "lmeval::mmlu" sampleTaskConfig
        "http://my-model-url" (Option.some "10") { metadata := [] } :=
  create_cr_deterministic sampleBuilder sampleBuilder "lmeval::mmlu"
    "lmeval::mmlu" sampleTaskConfig sampleTaskConfig "http://my-model-url"
    "http://my-model-url" (Option.some "10") (Option.some "10")
    { metadata := [] } { metadata := [] } rfl rfl rfl rfl rfl rfl

end LMEval
